import Mathlib

/-!
Shallow embedding of the orchestration core of `src/python/tvm/meta_schedule/tune.py`
(the user-facing tuning API): program normalization (`Parse._mod`), collaborator
resolution (`Parse._builder`, `Parse._sch_rules`, ..., `Parse._tune_context`,
`Parse._task_scheduler`), the structural-deduplication loop of `tune_relay`, and
the post-scheduling tail of `tune_tir`.

External collaborators (Builder, Runner, Database, CostModel, ScheduleRule,
Postproc, Mutator, SpaceGenerator, TaskScheduler, MeasureCallback, the search
strategies, and TVM's structural hash/equality over IR) live outside `src/`;
they are modelled as abstract values, and the structural hash and equality
functions are either taken as parameters (in the deduplication development) or
modelled from the spec (for concrete evaluations).
-/

/-- An attribute value attached to a PrimFunc (`with_attr` stores strings such
as `"main"` and booleans such as `True`). -/
inductive AttrVal where
  | str (s : String)
  | bool (b : Bool)
deriving DecidableEq, Repr

/-- Modelled from the spec: a TIR PrimFunc — a single computational unit
(glossary: "the optimization target — a single kernel"). The class itself lives
outside `src/`; for the orchestration core only its attribute dictionary
(read/written by `with_attr`) and an abstract structural body matter. -/
structure PrimFunc where
  attrs : List (String × AttrVal)
  body : Nat
deriving DecidableEq, Repr

/-- `PrimFunc.with_attr`: returns a copy of the function with the attribute
`key` bound to `v` (overwriting any previous binding). -/
def PrimFunc.with_attr (f : PrimFunc) (key : String) (v : AttrVal) : PrimFunc :=
  { f with attrs := (f.attrs.filter fun p => p.1 ≠ key) ++ [(key, v)] }

/-- Modelled from the spec: an IRModule — "a named collection of kernels".
`functions` is the mapping from global-var names to functions;
`get_global_vars` returns the names. -/
structure IRModule where
  functions : List (String × PrimFunc)
deriving DecidableEq, Repr

/-- `IRModule.get_global_vars()` — the list of global-var names of the module. -/
def IRModule.get_global_vars (m : IRModule) : List String :=
  m.functions.map Prod.fst

/-- A compilation-target kind tag (`target.kind.name` in the source, e.g.
`"llvm"` or `"cuda"`), used only for default-policy dispatch. -/
structure TargetKind where
  name : String
deriving DecidableEq, Repr

/-- A compilation target; the orchestration core reads only `kind`. -/
structure Target where
  kind : TargetKind
deriving DecidableEq, Repr

/-- The universe of dynamically-typed Python values that the resolvers of class
`Parse` inspect: `None`, ready-made collaborator instances, zero-argument
callables (carrying the value the call would return), and plain values such as
integers or strings (the shapes the `isinstance`/`callable` checks of the
source distinguish). The per-target default rule sets, postprocessor sets and
mutator-probability tables built by `DefaultLLVM`/`DefaultCUDA` from external
constructors are carried as profile-tagged values. -/
inductive PyVal where
  | none
  | intVal (n : Int)
  | strVal (s : String)
  | builderInst
  | runnerInst
  | databaseInst (path_workload path_tuning_record : String)
  | costModelInst
  | measureCallbackInst (tag : String)
  | spaceGenInst
  | taskSchedulerInst
  | schRules (profile : String)
  | postprocsOf (profile : String)
  | mutatorProbsOf (profile : String)
  | callable (result : PyVal)
deriving DecidableEq, Repr

/-- `isinstance(v, Builder)` in the model. -/
def isinstance_Builder : PyVal → Bool
  | .builderInst => true
  | _ => false

/-- `isinstance(v, Runner)` in the model. -/
def isinstance_Runner : PyVal → Bool
  | .runnerInst => true
  | _ => false

/-- `isinstance(v, Database)` in the model. -/
def isinstance_Database : PyVal → Bool
  | .databaseInst _ _ => true
  | _ => false

/-- `isinstance(v, CostModel)` in the model. -/
def isinstance_CostModel : PyVal → Bool
  | .costModelInst => true
  | _ => false

/-- `isinstance(v, SpaceGenerator)` in the model. -/
def isinstance_SpaceGenerator : PyVal → Bool
  | .spaceGenInst => true
  | _ => false

/-- `isinstance(v, TaskScheduler)` in the model. -/
def isinstance_TaskScheduler : PyVal → Bool
  | .taskSchedulerInst => true
  | _ => false

/-- `isinstance(v, MeasureCallback)` in the model. -/
def isinstance_MeasureCallback : PyVal → Bool
  | .measureCallbackInst _ => true
  | _ => false

/-- `callable(v)` in the model: only function values are callable. -/
def is_callable : PyVal → Bool
  | .callable _ => true
  | _ => false

/-- The exceptions the orchestration core raises. `typeError` carries the three
pieces the source interpolates into its `TypeError` message
(`f"Expected \x60{param}\x60 to be {expected}, but gets: {got}"`): the parameter
name, the expected capability, and the received value. `unsupportedTarget`
carries the target interpolated into `ValueError(f"Unsupported target: {target}")`,
whose kind tag is the offending kind. `valueError` covers Python-level
`ValueError`/`AssertionError` (e.g. tuple-unpack failures), and `typeErrorMsg`
a `TypeError` whose payload is kept as a message string. -/
inductive MSError where
  | typeError (param : String) (expected : String) (got : PyVal)
  | typeErrorMsg (msg : String)
  | valueError (msg : String)
  | unsupportedTarget (target : Target)
deriving DecidableEq, Repr

/-- `os.path.join(a, b)` for the relative file names the core builds. -/
def pathJoin (a b : String) : String := a ++ "/" ++ b

/-- The input shapes of `Parse._mod` (`Union[PrimFunc, IRModule]`, plus any
other Python value, carried as a string repr, for the `TypeError` branch). -/
inductive ModInput where
  | primFunc (f : PrimFunc)
  | irModule (m : IRModule)
  | other (r : String)
deriving DecidableEq, Repr

/-- The shared tail of `Parse._mod`: read `get_global_vars()`, unpack the
single name (`(func_name,) = func_names` — a `ValueError` when the module does
not have exactly one entry), and rename the entry to `"main"` when it carries a
different name. -/
def parse_mod_module (m : IRModule) : Except MSError IRModule :=
  match m.functions with
  | [(func_name, f)] =>
      if func_name ≠ "main" then Except.ok ⟨[("main", f)]⟩ else Except.ok m
  | [] => Except.error (.valueError "not enough values to unpack (expected 1, got 0)")
  | _ :: _ :: _ => Except.error (.valueError "too many values to unpack (expected 1)")

/-- `Parse._mod`: a bare PrimFunc is given `global_symbol = "main"` and
`tir.noalias = True` and wrapped as the sole entry `"main"` of a fresh module;
an IRModule goes straight to the single-entry check and canonical renaming;
anything else raises `TypeError`. -/
def parse_mod : ModInput → Except MSError IRModule
  | .primFunc f =>
      parse_mod_module
        ⟨[("main", (f.with_attr "global_symbol" (.str "main")).with_attr
            "tir.noalias" (.bool true))]⟩
  | .irModule m => parse_mod_module m
  | .other r =>
      Except.error (.typeErrorMsg ("Expected `mod` to be PrimFunc or IRModule, but gets: " ++ r))

/-- `Parse._builder`: `None` defaults to `LocalBuilder()`; anything that is not
a `Builder` instance raises `TypeError` naming `builder` and the value. -/
def parse_builder (builder : PyVal) : Except MSError PyVal :=
  let builder := if builder = PyVal.none then PyVal.builderInst else builder
  if isinstance_Builder builder then Except.ok builder
  else Except.error (.typeError "builder" "Builder" builder)

/-- `Parse._runner`: `None` defaults to `LocalRunner()`; anything that is not a
`Runner` instance raises `TypeError` naming `runner` and the value. -/
def parse_runner (runner : PyVal) : Except MSError PyVal :=
  let runner := if runner = PyVal.none then PyVal.runnerInst else runner
  if isinstance_Runner runner then Except.ok runner
  else Except.error (.typeError "runner" "Runner" runner)

/-- `Parse._database`: `None` defaults to a `JSONDatabase` over the two sibling
files `{task_name}_database_workload.json` and
`{task_name}_database_tuning_record.json` inside the working directory;
anything that is not a `Database` instance raises `TypeError`. -/
def parse_database (database : PyVal) (task_name path : String) : Except MSError PyVal :=
  let database :=
    if database = PyVal.none then
      PyVal.databaseInst
        (pathJoin path (task_name ++ "_database_workload.json"))
        (pathJoin path (task_name ++ "_database_tuning_record.json"))
    else database
  if isinstance_Database database then Except.ok database
  else Except.error (.typeError "database" "Database" database)

/-- The shapes of the `measure_callbacks` argument that `Parse._callbacks`
distinguishes: `None`, a Python list/tuple of values, or any other value. -/
inductive CallbacksArg where
  | none
  | alist (elems : List PyVal)
  | otherVal (v : PyVal)
deriving DecidableEq, Repr

/-- The element-wise check of `Parse._callbacks`: the first list element that
is not a `MeasureCallback` raises `TypeError`. -/
def check_callbacks : List PyVal → Except MSError Unit
  | [] => Except.ok ()
  | c :: rest =>
      if isinstance_MeasureCallback c then check_callbacks rest
      else Except.error (.typeError "measure_callbacks" "List[MeasureCallback]" c)

/-- `Parse._callbacks`: `None` defaults to the four standard callbacks; a
list/tuple is validated element-wise; any other shape raises `TypeError`. -/
def parse_callbacks (measure_callbacks : CallbacksArg) : Except MSError (List PyVal) :=
  match measure_callbacks with
  | .none =>
      Except.ok
        [ .measureCallbackInst "AddToDatabase",
          .measureCallbackInst "RemoveBuildArtifact",
          .measureCallbackInst "EchoStatistics",
          .measureCallbackInst "UpdateCostModel" ]
  | .alist elems =>
      match check_callbacks elems with
      | .ok _ => Except.ok elems
      | .error e => Except.error e
  | .otherVal v => Except.error (.typeError "measure_callbacks" "List[MeasureCallback]" v)

/-- `Parse._cost_model`: `None` defaults to `XGBModel(extractor=PerStoreFeature())`;
anything that is not a `CostModel` instance raises `TypeError`. -/
def parse_cost_model (cost_model : PyVal) : Except MSError PyVal :=
  if cost_model = PyVal.none then Except.ok PyVal.costModelInst
  else if isinstance_CostModel cost_model then Except.ok cost_model
  else Except.error (.typeError "cost_model" "CostModel" cost_model)

/-- `Parse._space_generator`: `None` defaults to `PostOrderApply()`; a callable
is invoked; the (possibly produced) value must then be a `SpaceGenerator`
instance, else `TypeError`. -/
def parse_space_generator (space_generator : PyVal) : Except MSError PyVal :=
  if space_generator = PyVal.none then Except.ok PyVal.spaceGenInst
  else
    let space_generator :=
      match space_generator with
      | .callable r => r
      | v => v
    if isinstance_SpaceGenerator space_generator then Except.ok space_generator
    else Except.error (.typeError "space_generator" "SpaceGenerator" space_generator)

/-- `Parse._sch_rules`: a callable is invoked and its result returned
unvalidated; any other non-`None` value raises `TypeError`; `None` selects the
per-target default profile (`DefaultLLVM._sch_rules()` / `DefaultCUDA._sch_rules()`)
or raises `ValueError(f"Unsupported target: {target}")`. -/
def parse_sch_rules (sch_rules : PyVal) (target : Target) : Except MSError PyVal :=
  match sch_rules with
  | .callable r => Except.ok r
  | .none =>
      if target.kind.name = "llvm" then Except.ok (PyVal.schRules "llvm")
      else if target.kind.name = "cuda" then Except.ok (PyVal.schRules "cuda")
      else Except.error (.unsupportedTarget target)
  | v => Except.error (.typeError "sch_rules" "None or callable" v)

/-- `Parse._postproc`: same three-way branch as `Parse._sch_rules`, over the
per-target postprocessor profiles. -/
def parse_postproc (postproc : PyVal) (target : Target) : Except MSError PyVal :=
  match postproc with
  | .callable r => Except.ok r
  | .none =>
      if target.kind.name = "llvm" then Except.ok (PyVal.postprocsOf "llvm")
      else if target.kind.name = "cuda" then Except.ok (PyVal.postprocsOf "cuda")
      else Except.error (.unsupportedTarget target)
  | v => Except.error (.typeError "postproc" "None or callable" v)

/-- `Parse._mutator_probs`: same three-way branch as `Parse._sch_rules`, over
the per-target mutator-probability profiles. -/
def parse_mutator_probs (mutator_probs : PyVal) (target : Target) : Except MSError PyVal :=
  match mutator_probs with
  | .callable r => Except.ok r
  | .none =>
      if target.kind.name = "llvm" then Except.ok (PyVal.mutatorProbsOf "llvm")
      else if target.kind.name = "cuda" then Except.ok (PyVal.mutatorProbsOf "cuda")
      else Except.error (.unsupportedTarget target)
  | v => Except.error (.typeError "mutator_probs" "None or callable" v)

/-- The search-strategy configuration (`ReplayFuncConfig` etc.): external; the
core only calls `config.create_strategy()`, modelled as returning the carried
strategy value. -/
structure SearchStrategyConfig where
  strategyOf : PyVal
deriving DecidableEq, Repr

/-- `config.create_strategy()`. -/
def SearchStrategyConfig.create_strategy (c : SearchStrategyConfig) : PyVal :=
  c.strategyOf

/-- The `TuneContext` bundle exactly as constructed at
`Parse._tune_context` (fields in construction order). -/
structure TuneContext where
  mod : IRModule
  target : Target
  space_generator : PyVal
  search_strategy : PyVal
  sch_rules : PyVal
  postprocs : PyVal
  mutator_probs : PyVal
  task_name : String
  rand_state : Int
  num_threads : Option Nat
deriving DecidableEq, Repr

/-- `Parse._tune_context`: when no override is given, resolve the policies in
the source's evaluation order and construct the context with
`rand_state = -1`; a supplied `TuneContext` instance is passed through. -/
def parse_tune_context (tune_context : Option TuneContext) (mod : IRModule)
    (target : Target) (config : SearchStrategyConfig) (task_name : String)
    (space_generator sch_rules postprocs mutator_probs : PyVal)
    (num_threads : Option Nat) : Except MSError TuneContext :=
  match tune_context with
  | some tc => Except.ok tc
  | none =>
      match parse_space_generator space_generator with
      | .error e => Except.error e
      | .ok sg =>
          match parse_sch_rules sch_rules target with
          | .error e => Except.error e
          | .ok sr =>
              match parse_postproc postprocs target with
              | .error e => Except.error e
              | .ok pp =>
                  match parse_mutator_probs mutator_probs target with
                  | .error e => Except.error e
                  | .ok mp =>
                      Except.ok
                        { mod := mod
                          target := target
                          space_generator := sg
                          search_strategy := config.create_strategy
                          sch_rules := sr
                          postprocs := pp
                          mutator_probs := mp
                          task_name := task_name
                          rand_state := -1
                          num_threads := num_threads }

/-- The task scheduler handed to `tune()`: the default `RoundRobin` over the
task list and collaborators, a user instance, or whatever a user factory
returned. -/
inductive TaskSchedulerVal where
  | roundRobin (tasks : List TuneContext)
      (builder runner database cost_model : PyVal) (callbacks : List PyVal)
  | userInstance (v : PyVal)
  | factoryResult (v : PyVal)
deriving DecidableEq, Repr

/-- `Parse._task_scheduler`: `None` constructs a `RoundRobin` over the task
list and collaborators; a callable is invoked with them (its result returned
unvalidated); otherwise the value must be a `TaskScheduler` instance, else
`TypeError`. -/
def parse_task_scheduler (task_scheduler : PyVal) (tasks : List TuneContext)
    (builder runner database cost_model : PyVal) (callbacks : List PyVal) :
    Except MSError TaskSchedulerVal :=
  match task_scheduler with
  | .none =>
      Except.ok (.roundRobin tasks builder runner database cost_model callbacks)
  | .callable r => Except.ok (.factoryResult r)
  | v =>
      if isinstance_TaskScheduler v then Except.ok (.userInstance v)
      else Except.error (.typeError "task_scheduler" "TaskScheduler" v)

/-- Number of tasks a resolved scheduler was constructed over (0 for
user-supplied schedulers, whose task list is theirs). -/
def schedulerTaskCount : TaskSchedulerVal → Nat
  | .roundRobin tasks _ _ _ _ _ => tasks.length
  | _ => 0

/-- `true` exactly on `Except.error`. -/
def isError {α : Type} : Except MSError α → Bool
  | .error _ => true
  | .ok _ => false

/-- The per-candidate duplicate flag of the deduplication loop of `tune_relay`:
`flag` is set exactly when the candidate's structural hash already occurs in
`hashs` (the hashes of the accepted tasks) and some task occurring *after* the
candidate in the original extraction list (`tune_contexts[i + 1 :]`) is
structurally equal to it. `shash`/`seq` are the imported collaborators
`structural_hash`/`structural_equal` of `tvm.ir.base`. -/
def dupFlag (shash : IRModule → Int) (seq : IRModule → IRModule → Bool)
    (hashs : List Int) (task : TuneContext) (rest : List TuneContext) : Bool :=
  hashs.contains (shash task.mod) && rest.any fun other => seq task.mod other.mod

/-- The deduplication loop of `tune_relay` (the `for i, task in
enumerate(tune_contexts)` loop): each candidate whose `dupFlag` is unset is
appended to `tasks` and its structural hash to `hashs`. -/
def dedupLoop (shash : IRModule → Int) (seq : IRModule → IRModule → Bool) :
    List TuneContext → List TuneContext → List Int → List TuneContext × List Int
  | [], tasks, hashs => (tasks, hashs)
  | task :: rest, tasks, hashs =>
      if dupFlag shash seq hashs task rest then
        dedupLoop shash seq rest tasks hashs
      else
        dedupLoop shash seq rest (tasks ++ [task]) (hashs ++ [shash task.mod])

/-- The deduplication step of `tune_relay`: run the loop from empty `tasks`
and `hashs` accumulators and hand the surviving `tasks` on. -/
def dedupTasks (shash : IRModule → Int) (seq : IRModule → IRModule → Bool)
    (tune_contexts : List TuneContext) : List TuneContext :=
  (dedupLoop shash seq tune_contexts [] []).1

/-- The two task counts `tune_relay` reports around deduplication
(`"Before task deduplication: %d tasks"` / `"After task deduplication: %d tasks"`). -/
def dedupReportedCounts (shash : IRModule → Int) (seq : IRModule → IRModule → Bool)
    (tune_contexts : List TuneContext) : Nat × Nat :=
  (tune_contexts.length, (dedupTasks shash seq tune_contexts).length)

/-- Modelled from the spec: `structural_hash` of `tvm.ir.base` (external to
the visible sources) — "a content-based fingerprint ... over a program's
structure, independent of object identity". Modelled as an additive content
fingerprint; collisions between different programs are possible, and
structurally equal programs hash equal. -/
def structural_hash (m : IRModule) : Int :=
  Int.ofNat <| m.functions.foldl
    (fun a p =>
      a + p.1.length + p.2.body +
        p.2.attrs.foldl
          (fun b q =>
            b + q.1.length +
              match q.2 with
              | .str s => s.length
              | .bool bb => if bb then 1 else 0)
          0)
    0

/-- Modelled from the spec: `structural_equal` of `tvm.ir.base` — "exact-match
comparison over a program's structure, independent of object identity"; on the
value-level program model this is value equality. -/
def structural_equal (a b : IRModule) : Bool :=
  decide (a = b)

/-- A trace: "an ordered sequence of transformation decisions" (external;
only carried and applied, never inspected by the core). -/
structure Trace where
  steps : List String
deriving DecidableEq, Repr

/-- A tuning record as read back by `tune_tir` (`bests[0].trace` is all the
core touches; the measured run costs are external measurement data). -/
structure TuningRecord where
  workload_id : Nat
  trace : Trace
deriving DecidableEq, Repr

/-- A TIR schedule: `Schedule(mod)` makes a fresh schedule over `mod`;
`trace.apply_to_schedule(sch, ...)` replays a trace onto it (modelled as
recording the applied trace). -/
structure Schedule where
  mod : IRModule
  appliedTrace : Option Trace
deriving DecidableEq, Repr

/-- The externally visible file effects of the tail of `tune_tir`. -/
inductive TuneEffect where
  | costModelSave (path : String)
deriving DecidableEq, Repr

/-- The tail of `tune_tir` after `task_scheduler.tune()` returns, as a function
of the record list `bests` the database answered for the committed workload
(`database.get_top_k(database.commit_workload(mod), top_k=1)`): an empty answer
returns `None` immediately; a single record is replayed onto a fresh schedule
and the cost model is saved to `{task_name}.xgb` under the working directory;
more than one record trips the `assert len(bests) == 1`. The first component
collects the file effects performed on the way. -/
def tuneTirTail (work_dir task_name : String) (mod : IRModule)
    (bests : List TuningRecord) :
    Except MSError (List TuneEffect × Option Schedule) :=
  match bests with
  | [] => Except.ok ([], Option.none)
  | [b] =>
      Except.ok
        ([TuneEffect.costModelSave (pathJoin work_dir (task_name ++ ".xgb"))],
          Option.some { mod := mod, appliedTrace := Option.some b.trace })
  | _ :: _ :: _ => Except.error (.valueError "assert len(bests) == 1")

/-- `true` exactly when the tail of `tune_tir` performed the cost-model save. -/
def savesCostModel (r : Except MSError (List TuneEffect × Option Schedule)) : Bool :=
  match r with
  | .ok (effects, _) =>
      effects.any fun e => match e with | .costModelSave _ => true
  | .error _ => false

/-- An extracted task as returned by `extract_task_from_relay` (external):
a task name and the dispatched candidate sub-programs. -/
structure ExtractedTask where
  task_name : String
  dispatched : List ModInput
deriving DecidableEq, Repr

/-- The context-construction loop of `tune_relay`: each extracted task must
have exactly one dispatched candidate (`assert len(task.dispatched) == 1`),
which is normalized by `Parse._mod` and turned into a `TuneContext` by
`Parse._tune_context` with no context override, all tasks sharing the target,
config and policy overrides. -/
def tuneRelayContexts (extracted : List ExtractedTask) (target : Target)
    (config : SearchStrategyConfig)
    (space sch_rules postprocs mutator_probs : PyVal)
    (num_threads : Option Nat) : Except MSError (List TuneContext) :=
  match extracted with
  | [] => Except.ok []
  | task :: rest =>
      match task.dispatched with
      | [d] =>
          match parse_mod d with
          | .error e => Except.error e
          | .ok m =>
              match parse_tune_context Option.none m target config task.task_name
                  space sch_rules postprocs mutator_probs num_threads with
              | .error e => Except.error e
              | .ok tc =>
                  match tuneRelayContexts rest target config space sch_rules
                      postprocs mutator_probs num_threads with
                  | .error e => Except.error e
                  | .ok tcs => Except.ok (tc :: tcs)
      | _ => Except.error (.valueError "Only size 1 dispatched task list is supported for now")

/-- The structural hash of the module carried by a context (the quantity the
deduplication loop computes per candidate). -/
def taskHash (shash : IRModule → Int) (c : TuneContext) : Int :=
  shash c.mod

/-- `KeepCond acc kept` states that every element of `kept` would survive the
duplicate test again when processed after the already-accepted prefix `acc`:
at every split `kept = k1 ++ t :: k2` the duplicate flag of `t` computed
against the accepted hashes of `acc ++ k1` and the remaining suffix `k2` is
unset. -/
def KeepCond (shash : IRModule → Int) (seq : IRModule → IRModule → Bool)
    (acc kept : List TuneContext) : Prop :=
  ∀ k1 t k2, kept = k1 ++ t :: k2 →
    dupFlag shash seq ((acc ++ k1).map (taskHash shash)) t k2 = false

/-- A PrimFunc fixture with empty attributes and the given structural body. -/
def pfBody (n : Nat) : PrimFunc := ⟨[], n⟩

/-- A single-entry module fixture around `pfBody n`. -/
def modBody (n : Nat) : IRModule := ⟨[("main", pfBody n)]⟩

/-- The `"llvm"` target used in concrete evaluations. -/
def llvmTarget : Target := ⟨⟨"llvm"⟩⟩

/-- A search-strategy configuration fixture. -/
def cfgFix : SearchStrategyConfig := ⟨.strVal "replay-trace"⟩

/-- A TuneContext fixture: module `m`, task name `name`, llvm default
policies, as `Parse._tune_context` would build it. -/
def ctxFix (m : IRModule) (name : String) : TuneContext :=
  ⟨m, llvmTarget, .spaceGenInst, .strVal "replay-trace", .schRules "llvm",
    .postprocsOf "llvm", .mutatorProbsOf "llvm", name, -1, Option.none⟩

/-- Extraction result fixture for the whole-model scenario: 5 tasks whose
dispatched kernels have bodies 10, 20, 10, 30, 40 — tasks `"t0"` and `"t2"`
carry structurally identical programs. -/
def c1Extracted : List ExtractedTask :=
  [ ⟨"t0", [.primFunc (pfBody 10)]⟩,
    ⟨"t1", [.primFunc (pfBody 20)]⟩,
    ⟨"t2", [.primFunc (pfBody 10)]⟩,
    ⟨"t3", [.primFunc (pfBody 30)]⟩,
    ⟨"t4", [.primFunc (pfBody 40)]⟩ ]

/-- The tuning contexts `tune_relay` builds from `c1Extracted` (llvm target,
no overrides). -/
def c1Contexts : List TuneContext :=
  ((tuneRelayContexts c1Extracted llvmTarget cfgFix PyVal.none PyVal.none
      PyVal.none PyVal.none Option.none).toOption).getD []

/-- The context the C10 witness is about: what `Parse._tune_context` builds
for `modBody 3` on llvm with no overrides. -/
def c10Ctx : TuneContext :=
  ⟨modBody 3, llvmTarget, .spaceGenInst, .strVal "replay-trace", .schRules "llvm",
    .postprocsOf "llvm", .mutatorProbsOf "llvm", "main", -1, Option.none⟩

theorem any_eq_false_of_sublist {p : TuneContext → Bool} {l1 l2 : List TuneContext}
    (hsub : l1.Sublist l2) (h : l2.any p = false) : l1.any p = false := by
  rw [List.any_eq_false] at h ⊢
  intro x hx
  exact h x (hsub.subset hx)

theorem dupFlag_false_of_sublist {shash : IRModule → Int} {seq : IRModule → IRModule → Bool}
    {hashs : List Int} {task : TuneContext} {l1 l2 : List TuneContext}
    (hsub : l1.Sublist l2) (h : dupFlag shash seq hashs task l2 = false) :
    dupFlag shash seq hashs task l1 = false := by
  unfold dupFlag at h ⊢
  cases hc : hashs.contains (shash task.mod) with
  | false => simp [hc]
  | true =>
      rw [hc] at h
      simp only [Bool.true_and] at h ⊢
      exact any_eq_false_of_sublist hsub h

theorem dedupLoop_kept (shash : IRModule → Int) (seq : IRModule → IRModule → Bool)
    (input : List TuneContext) :
    ∀ acc : List TuneContext,
      ∃ kept : List TuneContext,
        (dedupLoop shash seq input acc (acc.map (taskHash shash))).1 = acc ++ kept ∧
        kept.Sublist input ∧ KeepCond shash seq acc kept := by
  induction input with
  | nil =>
      intro acc
      refine ⟨[], by simp [dedupLoop], List.Sublist.slnil, ?_⟩
      intro k1 t k2 hk
      exact absurd hk (by simp)
  | cons task rest ih =>
      intro acc
      cases hflag : dupFlag shash seq (acc.map (taskHash shash)) task rest with
      | true =>
          obtain ⟨kept, h1, hsub, hkc⟩ := ih acc
          refine ⟨kept, ?_, hsub.cons task, hkc⟩
          rw [show dedupLoop shash seq (task :: rest) acc (acc.map (taskHash shash))
              = dedupLoop shash seq rest acc (acc.map (taskHash shash)) from by
            simp [dedupLoop, hflag]]
          exact h1
      | false =>
          obtain ⟨kept, h1, hsub, hkc⟩ := ih (acc ++ [task])
          refine ⟨task :: kept, ?_, hsub.cons₂ task, ?_⟩
          · have hmap : (acc ++ [task]).map (taskHash shash)
                = acc.map (taskHash shash) ++ [shash task.mod] := by
              simp [taskHash]
            rw [show dedupLoop shash seq (task :: rest) acc (acc.map (taskHash shash))
                = dedupLoop shash seq rest (acc ++ [task])
                    (acc.map (taskHash shash) ++ [shash task.mod]) from by
              simp [dedupLoop, hflag]]
            rw [← hmap, h1]
            simp
          · intro k1 t k2 hk
            cases k1 with
            | nil =>
                simp only [List.nil_append, List.cons.injEq] at hk
                obtain ⟨ht, hk2⟩ := hk
                subst ht
                subst hk2
                rw [List.append_nil]
                exact dupFlag_false_of_sublist hsub hflag
            | cons a k1t =>
                simp only [List.cons_append, List.cons.injEq] at hk
                obtain ⟨ha, hk2⟩ := hk
                subst ha
                have h2 := hkc k1t t k2 hk2
                have hs : acc ++ task :: k1t = (acc ++ [task]) ++ k1t := by simp
                rw [hs]
                exact h2

theorem dedupLoop_stable (shash : IRModule → Int) (seq : IRModule → IRModule → Bool)
    (rest : List TuneContext) :
    ∀ acc : List TuneContext, KeepCond shash seq acc rest →
      (dedupLoop shash seq rest acc (acc.map (taskHash shash))).1 = acc ++ rest := by
  induction rest with
  | nil =>
      intro acc _
      simp [dedupLoop]
  | cons t r ih =>
      intro acc hkc
      have hflag : dupFlag shash seq (acc.map (taskHash shash)) t r = false := by
        have h := hkc [] t r (by simp)
        simpa using h
      have hkc2 : KeepCond shash seq (acc ++ [t]) r := by
        intro k1 s k2 hk
        have h := hkc (t :: k1) s k2 (by simp [hk])
        have hs : acc ++ t :: k1 = (acc ++ [t]) ++ k1 := by simp
        rwa [hs] at h
      have hmap : (acc ++ [t]).map (taskHash shash)
          = acc.map (taskHash shash) ++ [shash t.mod] := by
        simp [taskHash]
      have hrec := ih (acc ++ [t]) hkc2
      rw [show dedupLoop shash seq (t :: r) acc (acc.map (taskHash shash))
          = dedupLoop shash seq r (acc ++ [t]) (acc.map (taskHash shash) ++ [shash t.mod]) from by
        simp [dedupLoop, hflag]]
      rw [← hmap, hrec]
      simp

/-- C3: the deduplication step of `tune_relay` is idempotent — for every input
list of tuning contexts (and any structural hash and equality collaborators),
running the deduplication a second time on its own output returns that output
unchanged, with no further removals. -/
theorem dedup_idempotent (shash : IRModule → Int) (seq : IRModule → IRModule → Bool)
    (tune_contexts : List TuneContext) :
    dedupTasks shash seq (dedupTasks shash seq tune_contexts)
      = dedupTasks shash seq tune_contexts := by
  obtain ⟨kept, h1, hsub, hkc⟩ := dedupLoop_kept shash seq tune_contexts []
  have e1 : dedupTasks shash seq tune_contexts = kept := by
    unfold dedupTasks
    simpa using h1
  have e2 := dedupLoop_stable shash seq kept [] hkc
  rw [e1]
  unfold dedupTasks
  simpa using e2

/-- C1 (code evaluation at the failing input): the whole-model scenario of the
claim fails on the code. `c1Extracted` extracts into 5 tasks of which tasks 0
and 2 carry structurally identical programs, yet the deduplication loop keeps
all 5 (the second copy is tested for equality only against tasks occurring
after it), so the default RoundRobin scheduler is constructed over 5 tasks and
the reported pre/post counts are 5 and 5 — not 4 and (5, 4) as claimed — and
the scheduled list contains two structurally equal programs. -/
theorem tune_relay_dedup_keeps_duplicate_pair :
    c1Contexts.length = 5 ∧
    structural_equal ((c1Contexts.map TuneContext.mod).getD 0 ⟨[]⟩)
        ((c1Contexts.map TuneContext.mod).getD 2 ⟨[]⟩) = true ∧
    dedupTasks structural_hash structural_equal c1Contexts = c1Contexts ∧
    dedupReportedCounts structural_hash structural_equal c1Contexts = (5, 5) ∧
    (parse_task_scheduler PyVal.none
        (dedupTasks structural_hash structural_equal c1Contexts)
        PyVal.builderInst PyVal.runnerInst
        (PyVal.databaseInst "wd/main_database_workload.json"
          "wd/main_database_tuning_record.json")
        PyVal.costModelInst []).map schedulerTaskCount = Except.ok 5 := by
  refine ⟨rfl, rfl, rfl, rfl, rfl⟩

/-- C2 (code evaluation at the failing input): for the input `[A, B, A2, C]`
with `A` and `A2` structurally equal (same module, different task names) and
`B`, `C` distinct from everything else and each other, the deduplication loop
returns all four contexts — `A2` survives because the equality scan after the
hash hit looks only at tasks occurring after it — instead of `[A, B, C]` as
claimed. -/
theorem dedup_keeps_second_copy :
    structural_equal (ctxFix (modBody 10) "A").mod (ctxFix (modBody 10) "A2").mod = true ∧
    structural_equal (modBody 10) (modBody 20) = false ∧
    structural_equal (modBody 10) (modBody 30) = false ∧
    structural_equal (modBody 20) (modBody 30) = false ∧
    dedupTasks structural_hash structural_equal
        [ctxFix (modBody 10) "A", ctxFix (modBody 20) "B",
          ctxFix (modBody 10) "A2", ctxFix (modBody 30) "C"]
      = [ctxFix (modBody 10) "A", ctxFix (modBody 20) "B",
          ctxFix (modBody 10) "A2", ctxFix (modBody 30) "C"] := by
  refine ⟨rfl, by decide, by decide, by decide, rfl⟩

/-- C4: program normalization (`Parse._mod`) maps a bare PrimFunc — whatever
its original attributes, including a different `global_symbol` — to a module
whose sole global var is canonically named `"main"`, and renames the single
entry of a one-entry module to `"main"` whenever it carries a different name. -/
theorem parse_mod_canonical_main (f g : PrimFunc) (name : String) (h : name ≠ "main") :
    (parse_mod (ModInput.primFunc f)).map IRModule.get_global_vars = Except.ok ["main"] ∧
    parse_mod (ModInput.irModule ⟨[(name, g)]⟩) = Except.ok ⟨[("main", g)]⟩ := by
  constructor
  · rfl
  · simp [parse_mod, parse_mod_module, h]

/-- Witness for C4 at concrete inputs: a PrimFunc with body 7 and a module
whose sole entry is named `"foo"`. -/
theorem parse_mod_canonical_main_witness :
    ("foo" : String) ≠ "main" ∧
    ((parse_mod (ModInput.primFunc (pfBody 7))).map IRModule.get_global_vars
        = Except.ok ["main"] ∧
      parse_mod (ModInput.irModule ⟨[("foo", pfBody 7)]⟩)
        = Except.ok ⟨[("main", pfBody 7)]⟩) :=
  ⟨by decide, parse_mod_canonical_main (pfBody 7) (pfBody 7) "foo" (by decide)⟩

/-- C7: when scheduling completes but the record store answers no tuning
record for the program's workload, the tail of `tune_tir` returns the explicit
absent value `None` — an `ok` result carrying no schedule and performing no
effects — and never raises. -/
theorem tune_tir_no_record_returns_none (work_dir task_name : String) (m : IRModule) :
    tuneTirTail work_dir task_name m [] = Except.ok ([], Option.none) := rfl

/-- C8 counterexample: along the path where no winning tuning record is found,
the cost-model save does not execute — `tune_tir` returns `None` at
`if not bests: return None` before reaching `cost_model.save(...)`, so the
effect list of the no-record run is empty. -/
theorem tune_tir_no_record_skips_save :
    savesCostModel (tuneTirTail "work" "main" (modBody 0) []) = false := rfl

/-- C8 (amended): the cost-model save step (writing `{task_name}.xgb` under
the working directory) executes exactly on the path where a winning tuning
record is found; on the no-record path the function returns `None` without
saving. -/
theorem tune_tir_save_iff_record (work_dir task_name : String) (m : IRModule)
    (b : TuningRecord) :
    tuneTirTail work_dir task_name m [b]
        = Except.ok
            ([TuneEffect.costModelSave (pathJoin work_dir (task_name ++ ".xgb"))],
              Option.some { mod := m, appliedTrace := Option.some b.trace }) ∧
    savesCostModel (tuneTirTail work_dir task_name m [b]) = true ∧
    savesCostModel (tuneTirTail work_dir task_name m []) = false := by
  refine ⟨rfl, rfl, rfl⟩

/-- C9: program normalization accepts only single-entry modules — for every
module with more than one global function, `Parse._mod` raises (the
single-element tuple unpacking of the global-var list fails), and every module
it does return has exactly one entry, so normalization never succeeds on a
multi-entry module. -/
theorem parse_mod_rejects_multi_entry (m : IRModule) (x : ModInput) (m2 : IRModule) :
    (1 < m.functions.length → isError (parse_mod (ModInput.irModule m)) = true) ∧
    (parse_mod x = Except.ok m2 → m2.functions.length = 1) := by
  constructor
  · intro hm
    obtain ⟨fs⟩ := m
    cases fs with
    | nil => simp at hm
    | cons a tail =>
        cases tail with
        | nil => simp at hm
        | cons b rest =>
            obtain ⟨n1, f1⟩ := a
            obtain ⟨n2, f2⟩ := b
            rfl
  · intro hx
    cases x with
    | primFunc f =>
        unfold parse_mod parse_mod_module at hx
        simp at hx
        rw [← hx]
        rfl
    | irModule mm =>
        obtain ⟨fs⟩ := mm
        cases fs with
        | nil => exact absurd hx (by simp [parse_mod, parse_mod_module])
        | cons a tail =>
            cases tail with
            | cons b rest =>
                obtain ⟨n1, f1⟩ := a
                obtain ⟨n2, f2⟩ := b
                exact absurd hx (by simp [parse_mod, parse_mod_module])
            | nil =>
                obtain ⟨n1, f1⟩ := a
                simp only [parse_mod, parse_mod_module] at hx
                split at hx
                · injection hx with hx2
                  rw [← hx2]
                  rfl
                · injection hx with hx2
                  rw [← hx2]
                  rfl
    | other r => exact absurd hx (by simp [parse_mod])

/-- Witness for C9: a two-entry module is rejected, and the module obtained by
normalizing a bare PrimFunc has exactly one entry. -/
theorem parse_mod_rejects_multi_entry_witness :
    isError (parse_mod (ModInput.irModule
        ⟨[("a", pfBody 1), ("b", pfBody 2)]⟩)) = true ∧
    (IRModule.mk [("main",
        (pfBody 7).with_attr "global_symbol" (AttrVal.str "main")
          |>.with_attr "tir.noalias" (AttrVal.bool true))]).functions.length = 1 :=
  ⟨(parse_mod_rejects_multi_entry ⟨[("a", pfBody 1), ("b", pfBody 2)]⟩
      (ModInput.primFunc (pfBody 7)) ⟨[("main",
        (pfBody 7).with_attr "global_symbol" (AttrVal.str "main")
          |>.with_attr "tir.noalias" (AttrVal.bool true))]⟩).1 (by decide),
    (parse_mod_rejects_multi_entry ⟨[("a", pfBody 1), ("b", pfBody 2)]⟩
      (ModInput.primFunc (pfBody 7)) ⟨[("main",
        (pfBody 7).with_attr "global_symbol" (AttrVal.str "main")
          |>.with_attr "tir.noalias" (AttrVal.bool true))]⟩).2 rfl⟩

/-- C10: every TuneContext that `Parse._tune_context` constructs when no
context override is given carries `rand_state = -1`, regardless of all other
inputs — the seed is hard-coded at construction, and both public entry points
(`tune_tir` and `tune_relay`) call `Parse._tune_context` with
`tune_context=None`, so the seed is not configurable through them. -/
theorem tune_context_rand_state_fixed (mod : IRModule) (target : Target)
    (config : SearchStrategyConfig) (task_name : String)
    (space sch_rules postprocs mutator_probs : PyVal) (num_threads : Option Nat)
    (ctx : TuneContext)
    (h : parse_tune_context Option.none mod target config task_name space
        sch_rules postprocs mutator_probs num_threads = Except.ok ctx) :
    ctx.rand_state = -1 := by
  simp only [parse_tune_context] at h
  repeat' split at h
  all_goals try exact Except.noConfusion h
  injection h with h2
  rw [← h2]

/-- Witness for C10: the context built for `modBody 3` on llvm with no
overrides carries `rand_state = -1`. -/
theorem tune_context_rand_state_fixed_witness : c10Ctx.rand_state = -1 :=
  tune_context_rand_state_fixed (modBody 3) llvmTarget cfgFix "main"
    PyVal.none PyVal.none PyVal.none PyVal.none Option.none c10Ctx rfl

theorem parse_sch_rules_wrong_shape (v : PyVal) (t : Target)
    (hv0 : v ≠ PyVal.none) (hvf : is_callable v = false) :
    parse_sch_rules v t = Except.error (.typeError "sch_rules" "None or callable" v) := by
  cases v <;> first | exact absurd rfl hv0 | exact Bool.noConfusion hvf | rfl

theorem parse_postproc_wrong_shape (v : PyVal) (t : Target)
    (hv0 : v ≠ PyVal.none) (hvf : is_callable v = false) :
    parse_postproc v t = Except.error (.typeError "postproc" "None or callable" v) := by
  cases v <;> first | exact absurd rfl hv0 | exact Bool.noConfusion hvf | rfl

theorem parse_mutator_probs_wrong_shape (v : PyVal) (t : Target)
    (hv0 : v ≠ PyVal.none) (hvf : is_callable v = false) :
    parse_mutator_probs v t
      = Except.error (.typeError "mutator_probs" "None or callable" v) := by
  cases v <;> first | exact absurd rfl hv0 | exact Bool.noConfusion hvf | rfl

theorem parse_task_scheduler_wrong_shape (v : PyVal) (tasks : List TuneContext)
    (b r db cm : PyVal) (cb : List PyVal)
    (hv0 : v ≠ PyVal.none) (hvf : is_callable v = false)
    (hvt : isinstance_TaskScheduler v = false) :
    parse_task_scheduler v tasks b r db cm cb
      = Except.error (.typeError "task_scheduler" "TaskScheduler" v) := by
  cases v <;>
    first
      | exact absurd rfl hv0
      | exact Bool.noConfusion hvf
      | exact Bool.noConfusion hvt
      | rfl

/-- C5 counterexample: the claim says every collaborator parameter accepts a
zero-argument factory callable, but `Parse._builder` rejects the factory shape
— a callable that would produce a Builder is refused with a `TypeError`
instead of being invoked. -/
theorem parse_builder_rejects_factory :
    parse_builder (PyVal.callable PyVal.builderInst)
      = Except.error (MSError.typeError "builder" "Builder"
          (PyVal.callable PyVal.builderInst)) := rfl

/-- C5 (amended): the accepted shapes are per-parameter, not uniformly three.
`builder`, `runner`, `database` and `cost_model` accept `None` or a ready-made
instance; `measure_callbacks` accepts `None` or a list of MeasureCallback
instances; `sch_rules`, `postprocs` and `mutator_probs` accept `None` or a
zero-argument callable; `space_generator` and `task_scheduler` accept all
three shapes. On any other shape each resolver fails with a `TypeError`
naming the parameter and the value received (e.g. a plain integer passed as
builder is rejected with an error naming `builder`). -/
theorem parse_override_shapes (v w : PyVal) (t : Target) (tasks : List TuneContext)
    (b r db cm : PyVal) (cb : List PyVal) (tn wd : String)
    (hv0 : v ≠ PyVal.none)
    (hvb : isinstance_Builder v = false)
    (hvr : isinstance_Runner v = false)
    (hvd : isinstance_Database v = false)
    (hvc : isinstance_CostModel v = false)
    (hvm : isinstance_MeasureCallback v = false)
    (hvt : isinstance_TaskScheduler v = false)
    (hvf : is_callable v = false)
    (hws : isinstance_SpaceGenerator w = false) :
    (parse_builder PyVal.none = Except.ok PyVal.builderInst) ∧
    (parse_builder PyVal.builderInst = Except.ok PyVal.builderInst) ∧
    (parse_builder v = Except.error (.typeError "builder" "Builder" v)) ∧
    (parse_runner PyVal.none = Except.ok PyVal.runnerInst) ∧
    (parse_runner PyVal.runnerInst = Except.ok PyVal.runnerInst) ∧
    (parse_runner v = Except.error (.typeError "runner" "Runner" v)) ∧
    (parse_database PyVal.none tn wd
      = Except.ok (PyVal.databaseInst
          (pathJoin wd (tn ++ "_database_workload.json"))
          (pathJoin wd (tn ++ "_database_tuning_record.json")))) ∧
    (parse_database v tn wd = Except.error (.typeError "database" "Database" v)) ∧
    (parse_cost_model PyVal.none = Except.ok PyVal.costModelInst) ∧
    (parse_cost_model PyVal.costModelInst = Except.ok PyVal.costModelInst) ∧
    (parse_cost_model v = Except.error (.typeError "cost_model" "CostModel" v)) ∧
    (parse_callbacks (CallbacksArg.alist [v])
      = Except.error (.typeError "measure_callbacks" "List[MeasureCallback]" v)) ∧
    (parse_callbacks (CallbacksArg.otherVal v)
      = Except.error (.typeError "measure_callbacks" "List[MeasureCallback]" v)) ∧
    (parse_sch_rules (PyVal.callable w) t = Except.ok w) ∧
    (parse_sch_rules v t = Except.error (.typeError "sch_rules" "None or callable" v)) ∧
    (parse_postproc (PyVal.callable w) t = Except.ok w) ∧
    (parse_postproc v t = Except.error (.typeError "postproc" "None or callable" v)) ∧
    (parse_mutator_probs (PyVal.callable w) t = Except.ok w) ∧
    (parse_mutator_probs v t
      = Except.error (.typeError "mutator_probs" "None or callable" v)) ∧
    (parse_space_generator PyVal.none = Except.ok PyVal.spaceGenInst) ∧
    (parse_space_generator PyVal.spaceGenInst = Except.ok PyVal.spaceGenInst) ∧
    (parse_space_generator (PyVal.callable PyVal.spaceGenInst)
      = Except.ok PyVal.spaceGenInst) ∧
    (parse_space_generator (PyVal.callable w)
      = Except.error (.typeError "space_generator" "SpaceGenerator" w)) ∧
    (parse_task_scheduler PyVal.none tasks b r db cm cb
      = Except.ok (.roundRobin tasks b r db cm cb)) ∧
    (parse_task_scheduler (PyVal.callable w) tasks b r db cm cb
      = Except.ok (.factoryResult w)) ∧
    (parse_task_scheduler PyVal.taskSchedulerInst tasks b r db cm cb
      = Except.ok (.userInstance PyVal.taskSchedulerInst)) ∧
    (parse_task_scheduler v tasks b r db cm cb
      = Except.error (.typeError "task_scheduler" "TaskScheduler" v)) := by
  refine ⟨rfl, rfl, ?_, rfl, rfl, ?_, rfl, ?_, rfl, rfl, ?_, ?_, rfl, rfl, ?_,
    rfl, ?_, rfl, ?_, rfl, rfl, rfl, ?_, rfl, rfl, rfl, ?_⟩
  · simp [parse_builder, hv0, hvb]
  · simp [parse_runner, hv0, hvr]
  · simp [parse_database, hv0, hvd]
  · simp [parse_cost_model, hv0, hvc]
  · simp [parse_callbacks, check_callbacks, hvm]
  · exact parse_sch_rules_wrong_shape v t hv0 hvf
  · exact parse_postproc_wrong_shape v t hv0 hvf
  · exact parse_mutator_probs_wrong_shape v t hv0 hvf
  · simp [parse_space_generator, hws]
  · exact parse_task_scheduler_wrong_shape v tasks b r db cm cb hv0 hvf hvt

/-- Witness for C5 (amended) at concrete inputs: the wrong-shape value is the
plain integer 42 (matching the claim's example), the factory payload is the
integer 3, and the target is llvm. -/
theorem parse_override_shapes_witness :
    (parse_builder PyVal.none = Except.ok PyVal.builderInst) ∧
    (parse_builder PyVal.builderInst = Except.ok PyVal.builderInst) ∧
    (parse_builder (PyVal.intVal 42)
      = Except.error (.typeError "builder" "Builder" (PyVal.intVal 42))) ∧
    (parse_runner PyVal.none = Except.ok PyVal.runnerInst) ∧
    (parse_runner PyVal.runnerInst = Except.ok PyVal.runnerInst) ∧
    (parse_runner (PyVal.intVal 42)
      = Except.error (.typeError "runner" "Runner" (PyVal.intVal 42))) ∧
    (parse_database PyVal.none "main" "wd"
      = Except.ok (PyVal.databaseInst
          (pathJoin "wd" ("main" ++ "_database_workload.json"))
          (pathJoin "wd" ("main" ++ "_database_tuning_record.json")))) ∧
    (parse_database (PyVal.intVal 42) "main" "wd"
      = Except.error (.typeError "database" "Database" (PyVal.intVal 42))) ∧
    (parse_cost_model PyVal.none = Except.ok PyVal.costModelInst) ∧
    (parse_cost_model PyVal.costModelInst = Except.ok PyVal.costModelInst) ∧
    (parse_cost_model (PyVal.intVal 42)
      = Except.error (.typeError "cost_model" "CostModel" (PyVal.intVal 42))) ∧
    (parse_callbacks (CallbacksArg.alist [PyVal.intVal 42])
      = Except.error (.typeError "measure_callbacks" "List[MeasureCallback]"
          (PyVal.intVal 42))) ∧
    (parse_callbacks (CallbacksArg.otherVal (PyVal.intVal 42))
      = Except.error (.typeError "measure_callbacks" "List[MeasureCallback]"
          (PyVal.intVal 42))) ∧
    (parse_sch_rules (PyVal.callable (PyVal.intVal 3)) llvmTarget
      = Except.ok (PyVal.intVal 3)) ∧
    (parse_sch_rules (PyVal.intVal 42) llvmTarget
      = Except.error (.typeError "sch_rules" "None or callable" (PyVal.intVal 42))) ∧
    (parse_postproc (PyVal.callable (PyVal.intVal 3)) llvmTarget
      = Except.ok (PyVal.intVal 3)) ∧
    (parse_postproc (PyVal.intVal 42) llvmTarget
      = Except.error (.typeError "postproc" "None or callable" (PyVal.intVal 42))) ∧
    (parse_mutator_probs (PyVal.callable (PyVal.intVal 3)) llvmTarget
      = Except.ok (PyVal.intVal 3)) ∧
    (parse_mutator_probs (PyVal.intVal 42) llvmTarget
      = Except.error (.typeError "mutator_probs" "None or callable" (PyVal.intVal 42))) ∧
    (parse_space_generator PyVal.none = Except.ok PyVal.spaceGenInst) ∧
    (parse_space_generator PyVal.spaceGenInst = Except.ok PyVal.spaceGenInst) ∧
    (parse_space_generator (PyVal.callable PyVal.spaceGenInst)
      = Except.ok PyVal.spaceGenInst) ∧
    (parse_space_generator (PyVal.callable (PyVal.intVal 3))
      = Except.error (.typeError "space_generator" "SpaceGenerator" (PyVal.intVal 3))) ∧
    (parse_task_scheduler PyVal.none [] PyVal.builderInst PyVal.runnerInst
        PyVal.costModelInst PyVal.costModelInst []
      = Except.ok (.roundRobin [] PyVal.builderInst PyVal.runnerInst
          PyVal.costModelInst PyVal.costModelInst [])) ∧
    (parse_task_scheduler (PyVal.callable (PyVal.intVal 3)) [] PyVal.builderInst
        PyVal.runnerInst PyVal.costModelInst PyVal.costModelInst []
      = Except.ok (.factoryResult (PyVal.intVal 3))) ∧
    (parse_task_scheduler PyVal.taskSchedulerInst [] PyVal.builderInst
        PyVal.runnerInst PyVal.costModelInst PyVal.costModelInst []
      = Except.ok (.userInstance PyVal.taskSchedulerInst)) ∧
    (parse_task_scheduler (PyVal.intVal 42) [] PyVal.builderInst PyVal.runnerInst
        PyVal.costModelInst PyVal.costModelInst []
      = Except.error (.typeError "task_scheduler" "TaskScheduler" (PyVal.intVal 42))) :=
  parse_override_shapes (PyVal.intVal 42) (PyVal.intVal 3) llvmTarget []
    PyVal.builderInst PyVal.runnerInst PyVal.costModelInst PyVal.costModelInst []
    "main" "wd" (by decide) rfl rfl rfl rfl rfl rfl rfl rfl

/-- C6: when no override is supplied and the target's kind is neither of the
built-in default profiles `llvm` and `cuda`, each of the three default-policy
resolutions (`Parse._sch_rules`, `Parse._postproc`, `Parse._mutator_probs`)
fails with the `Unsupported target` error carrying the offending target (whose
kind tag identifies the unrecognized kind) instead of silently picking a
profile. -/
theorem default_policy_unsupported_target (t : Target)
    (h1 : t.kind.name ≠ "llvm") (h2 : t.kind.name ≠ "cuda") :
    parse_sch_rules PyVal.none t = Except.error (.unsupportedTarget t) ∧
    parse_postproc PyVal.none t = Except.error (.unsupportedTarget t) ∧
    parse_mutator_probs PyVal.none t = Except.error (.unsupportedTarget t) := by
  refine ⟨?_, ?_, ?_⟩ <;>
    simp [parse_sch_rules, parse_postproc, parse_mutator_probs, h1, h2]

/-- Witness for C6: the `rocm` target kind has no default profile, so all
three resolutions fail naming that target. -/
theorem default_policy_unsupported_target_witness :
    parse_sch_rules PyVal.none ⟨⟨"rocm"⟩⟩
        = Except.error (.unsupportedTarget ⟨⟨"rocm"⟩⟩) ∧
    parse_postproc PyVal.none ⟨⟨"rocm"⟩⟩
        = Except.error (.unsupportedTarget ⟨⟨"rocm"⟩⟩) ∧
    parse_mutator_probs PyVal.none ⟨⟨"rocm"⟩⟩
        = Except.error (.unsupportedTarget ⟨⟨"rocm"⟩⟩) :=
  default_policy_unsupported_target ⟨⟨"rocm"⟩⟩ (by decide) (by decide)
